import Mathlib

/-!
Verification of the GMS5/GOES9 satellite-archive pipeline (`src/app.py`).

The development shallowly embeds the pure core of the application:
the manual binary decoder `try_manual_reading`, the coverage resolution and
remote-path derivation performed by `fetch_file`, and the scratch-resource
lifecycle of `fetch_file` / `process_and_plot` / the top-level request flow.
File contents are modelled as lists of byte values (naturals below 256);
calibrated temperatures are modelled as exact rationals (the claimed endpoint
values 180.0 and 320.0 are exactly representable in the float32 arithmetic the
program uses).
-/

set_option autoImplicit false

namespace WPAC

/-! ### Binary decoder (`try_manual_reading`, src/app.py lines 129-192) -/

/-- Fixed header size skipped before pixel data (line 151). -/
def headerSize : Nat := 352

/-- Default geometry substituted for implausible header dimensions
(lines 141-148). -/
def defaultDim : Nat := 2366

/-- Big-endian 16-bit unsigned integer formed from the bytes at positions
`i` and `i+1`, as `struct.unpack` with format `>H` does on `data[i:i+2]`
(lines 138-139). Out-of-range positions read as 0; the program only reads
these offsets when the file has more than 12 bytes, so both positions exist. -/
def be16 (data : List Nat) (i : Nat) : Nat :=
  256 * data.getD i 0 + data.getD (i + 1) 0

/-- Declared (width, height) extracted from the header at byte offsets 8-10 and
10-12, replaced by the fixed default 2366 x 2366 when either value is outside
[100, 5000] or the file has at most 12 bytes (lines 136-148). -/
def headerDims (data : List Nat) : Nat × Nat :=
  if 12 < data.length then
    if 5000 < be16 data 8 ∨ 5000 < be16 data 10
        ∨ be16 data 8 < 100 ∨ be16 data 10 < 100 then
      (defaultDim, defaultDim)
    else (be16 data 8, be16 data 10)
  else (defaultDim, defaultDim)

/-- A decoded rectangular grid: the dimensions chosen by the decoder and the
flat row-major list of 8-bit samples actually consumed from the buffer. -/
structure Grid where
  height : Nat
  width : Nat
  pixels : List Nat
deriving DecidableEq

/-- Errors raised inside the decoder body; the only one is the
`ValueError("Insufficient data in file")` of line 188. -/
inductive DecodeError
  | insufficientData
deriving DecidableEq

/-- Geometry recovery and sample extraction of lines 156-168: if enough bytes
are available take exactly `width*height` samples; otherwise recompute the
height by integer division, and if that falls below 100 fall back to a square
of side `floor (sqrt available)`. `Nat.sqrt` embeds `int(np.sqrt(n))`, which
agrees with the integer square root on every buffer size reachable here. -/
def decodePixels (width height : Nat) (image_data : List Nat) : Grid :=
  if width * height ≤ image_data.length then
    ⟨height, width, image_data.take (width * height)⟩
  else if image_data.length / width < 100 then
    ⟨Nat.sqrt image_data.length, Nat.sqrt image_data.length,
      image_data.take (Nat.sqrt image_data.length * Nat.sqrt image_data.length)⟩
  else
    ⟨image_data.length / width, width,
      image_data.take (image_data.length / width * width)⟩

/-- Body of `try_manual_reading` before the surrounding `try/except`: decode
the buffer when pixel bytes exist after the 352-byte header, otherwise raise
the insufficient-data error (lines 150-188). -/
def decodeBody (data : List Nat) : Except DecodeError Grid :=
  if headerSize < data.length then
    Except.ok (decodePixels (headerDims data).1 (headerDims data).2 (data.drop headerSize))
  else
    Except.error DecodeError.insufficientData

/-- The decoder as seen by its caller: the outer `try/except` of lines 131-192
turns every internal failure into the no-result value `None`. -/
def try_manual_reading (data : List Nat) : Option Grid :=
  (decodeBody data).toOption

/-- Linear calibration of line 171: `180.0 + (sample/255.0) * (320.0 - 180.0)`,
in exact rational arithmetic. -/
def calibrate (s : Nat) : ℚ :=
  180 + ((s : ℚ) / 255) * (320 - 180)

/-- Calibrated temperature values of a decoded grid (line 171 applies
`calibrate` elementwise to the consumed samples). -/
def Grid.temperatures (g : Grid) : List ℚ :=
  g.pixels.map calibrate

/-- Characterization of the geometry-recovery step: the decoder always returns
a grid whose samples are an initial segment of the buffer and whose pixel count
is bounded by the bytes available. -/
theorem decodePixels_spec (width height : Nat) (image_data : List Nat) :
    (decodePixels width height image_data).pixels
        = image_data.take
            ((decodePixels width height image_data).height
              * (decodePixels width height image_data).width)
    ∧ (decodePixels width height image_data).height
        * (decodePixels width height image_data).width ≤ image_data.length := by
  unfold decodePixels
  split_ifs with h1 h2
  · exact ⟨by rw [Nat.mul_comm], by rw [Nat.mul_comm]; exact h1⟩
  · exact ⟨rfl, Nat.sqrt_le _⟩
  · exact ⟨rfl, Nat.div_mul_le_self _ _⟩

/-- Successful decoding: as soon as at least one pixel byte follows the header,
`decodeBody` returns a grid drawn from the start of the post-header buffer. -/
theorem decodeBody_ok (data : List Nat) (h : headerSize < data.length) :
    ∃ g, decodeBody data = Except.ok g
      ∧ g.pixels = (data.drop headerSize).take (g.height * g.width)
      ∧ g.height * g.width ≤ data.length - headerSize := by
  refine ⟨decodePixels (headerDims data).1 (headerDims data).2 (data.drop headerSize), ?_, ?_, ?_⟩
  · unfold decodeBody
    rw [if_pos h]
  · exact (decodePixels_spec _ _ _).1
  · have := (decodePixels_spec (headerDims data).1 (headerDims data).2 (data.drop headerSize)).2
    rwa [List.length_drop] at this

/-- C1: for every raw file longer than the 352-byte header, the manual decoder
produces a rectangular grid whose pixel count is at most the number of bytes
available after the header; the consumed samples are exactly an initial segment
of the post-header buffer (so the decoder never reads past the end), and the
decoder succeeds regardless of the declared header geometry. -/
theorem manual_decoder_fits_within_buffer (data : List Nat)
    (h : headerSize < data.length) :
    ∃ g, try_manual_reading data = some g
      ∧ g.height * g.width ≤ data.length - headerSize
      ∧ g.pixels.length = g.height * g.width
      ∧ g.pixels = (data.drop headerSize).take (g.height * g.width) := by
  obtain ⟨g, hok, hpx, hle⟩ := decodeBody_ok data h
  refine ⟨g, ?_, hle, ?_, hpx⟩
  · unfold try_manual_reading
    rw [hok]
    rfl
  · rw [hpx, List.length_take, List.length_drop]
    omega

/-- Witness for C1 at a concrete 353-byte file. -/
theorem manual_decoder_fits_within_buffer_witness :
    ∃ g, try_manual_reading (List.replicate 353 0) = some g
      ∧ g.height * g.width ≤ (List.replicate 353 (0 : Nat)).length - headerSize
      ∧ g.pixels.length = g.height * g.width
      ∧ g.pixels = ((List.replicate 353 (0 : Nat)).drop headerSize).take (g.height * g.width) :=
  manual_decoder_fits_within_buffer (List.replicate 353 0)
    (by rw [List.length_replicate]; decide)

/-- C4: when fewer post-header bytes are available than the declared (possibly
defaulted) `width * height` requires and the recomputed height
`available / width` is below 100, the decoder returns the square grid of side
`floor (sqrt available)` built from the first `side * side` samples. -/
theorem square_fallback_geometry (data : List Nat)
    (h : headerSize < data.length)
    (h1 : data.length - headerSize < (headerDims data).1 * (headerDims data).2)
    (h2 : (data.length - headerSize) / (headerDims data).1 < 100) :
    try_manual_reading data
      = some ⟨Nat.sqrt (data.length - headerSize), Nat.sqrt (data.length - headerSize),
          (data.drop headerSize).take
            (Nat.sqrt (data.length - headerSize)
              * Nat.sqrt (data.length - headerSize))⟩ := by
  have hlen : (data.drop headerSize).length = data.length - headerSize := by simp
  unfold try_manual_reading decodeBody
  rw [if_pos h]
  unfold decodePixels
  rw [hlen, if_neg (Nat.not_le.mpr h1), if_pos h2]
  rfl

set_option maxRecDepth 4000 in
/-- Witness for C4: the 353-byte all-zero file has one post-header byte, the
defaulted geometry 2366 x 2366 is oversized, the recomputed height is 0, and
the decoder emits the 1 x 1 square grid. -/
theorem square_fallback_geometry_witness :
    try_manual_reading (List.replicate 353 0) = some ⟨1, 1, [0]⟩ := by
  rw [square_fallback_geometry (List.replicate 353 0)
    (by rw [List.length_replicate]; decide) (by decide) (by decide)]
  decide

/-- C5: the decoder calibrates every 8-bit sample by
`temperature = 180.0 + (sample/255.0) * (320.0 - 180.0)`; hence a buffer whose
post-header bytes are all 0xFF decodes to a grid of temperatures all equal to
320, and all 0x00 to temperatures all equal to 180. -/
theorem calibration_endpoints (data : List Nat) (h : headerSize < data.length) :
    ((∀ b ∈ data.drop headerSize, b = 255) →
      ∃ g, try_manual_reading data = some g ∧ ∀ t ∈ g.temperatures, t = 320)
    ∧ ((∀ b ∈ data.drop headerSize, b = 0) →
      ∃ g, try_manual_reading data = some g ∧ ∀ t ∈ g.temperatures, t = 180) := by
  obtain ⟨g, hok, hpx, hle⟩ := decodeBody_ok data h
  have hsome : try_manual_reading data = some g := by
    unfold try_manual_reading
    rw [hok]
    rfl
  have hmem : ∀ s ∈ g.pixels, s ∈ data.drop headerSize := by
    intro s hs
    rw [hpx] at hs
    exact List.take_subset _ _ hs
  constructor
  · intro hall
    refine ⟨g, hsome, ?_⟩
    intro t ht
    obtain ⟨s, hs, rfl⟩ := List.mem_map.mp ht
    rw [hall s (hmem s hs)]
    unfold calibrate
    norm_num
  · intro hall
    refine ⟨g, hsome, ?_⟩
    intro t ht
    obtain ⟨s, hs, rfl⟩ := List.mem_map.mp ht
    rw [hall s (hmem s hs)]
    unfold calibrate
    norm_num

/-- Witness for C5 at concrete all-0xFF and all-0x00 files of 353 bytes. -/
theorem calibration_endpoints_witness :
    (∃ g, try_manual_reading (List.replicate 353 255) = some g
        ∧ ∀ t ∈ g.temperatures, t = 320)
    ∧ (∃ g, try_manual_reading (List.replicate 353 0) = some g
        ∧ ∀ t ∈ g.temperatures, t = 180) :=
  ⟨(calibration_endpoints (List.replicate 353 255)
      (by rw [List.length_replicate]; decide)).1
      (by intro b hb; rw [List.drop_replicate] at hb; exact List.eq_of_mem_replicate hb),
   (calibration_endpoints (List.replicate 353 0)
      (by rw [List.length_replicate]; decide)).2
      (by intro b hb; rw [List.drop_replicate] at hb; exact List.eq_of_mem_replicate hb)⟩

/-- C6: the decoder reads (width, height) as 16-bit big-endian integers at byte
offsets 8-10 and 10-12; both are replaced by the default 2366 x 2366 when the
file has 12 bytes or fewer, or when either value is below 100 or above 5000;
otherwise the declared pair is kept. -/
theorem header_geometry_defaulting (data : List Nat) :
    (data.length ≤ 12 → headerDims data = (2366, 2366))
    ∧ (12 < data.length →
      ((be16 data 8 < 100 ∨ 5000 < be16 data 8
          ∨ be16 data 10 < 100 ∨ 5000 < be16 data 10) →
        headerDims data = (2366, 2366))
      ∧ (100 ≤ be16 data 8 → be16 data 8 ≤ 5000 →
          100 ≤ be16 data 10 → be16 data 10 ≤ 5000 →
          headerDims data = (be16 data 8, be16 data 10))) := by
  refine ⟨?_, fun h => ⟨?_, ?_⟩⟩
  · intro h
    unfold headerDims
    rw [if_neg (by omega)]
    rfl
  · intro hbad
    unfold headerDims
    rw [if_pos h, if_pos (by omega)]
    rfl
  · intro h1 h2 h3 h4
    unfold headerDims
    rw [if_pos h, if_neg (by omega)]

/-- Witness for C6: the empty file defaults to 2366 x 2366; a 13-byte file
declaring 300 x 300 keeps the declared geometry. -/
theorem header_geometry_defaulting_witness :
    headerDims [] = (2366, 2366)
    ∧ headerDims [0, 0, 0, 0, 0, 0, 0, 0, 1, 44, 1, 44, 0] = (300, 300) :=
  ⟨(header_geometry_defaulting []).1 (by decide),
   ((header_geometry_defaulting [0, 0, 0, 0, 0, 0, 0, 0, 1, 44, 1, 44, 0]).2
      (by decide)).2 (by decide) (by decide) (by decide) (by decide)⟩

/-- C7: the decoder body raises the insufficient-data error exactly when no
pixel bytes at all remain after the 352-byte header (the header-skip region
consumes the whole file); with at least one post-header byte it never does. -/
theorem insufficient_data_iff_no_pixel_bytes (data : List Nat) :
    decodeBody data = Except.error DecodeError.insufficientData
      ↔ data.drop headerSize = [] := by
  have hlen : data.drop headerSize = [] ↔ data.length ≤ headerSize := by
    rw [List.drop_eq_nil_iff]
  rw [hlen]
  unfold decodeBody
  split_ifs with h
  · exact iff_of_false (by simp) (by omega)
  · exact iff_of_true rfl (by omega)

/-- C10: the decoder is total at its caller-facing interface: with at least one
post-header byte it returns a grid, otherwise it returns the no-result value
`none` (the internal insufficient-data failure caught by the surrounding
`try/except`); no input produces any other outcome. -/
theorem manual_decoder_total_interface (data : List Nat) :
    (headerSize < data.length → ∃ g, try_manual_reading data = some g)
    ∧ (data.length ≤ headerSize → try_manual_reading data = none) := by
  constructor
  · intro h
    obtain ⟨g, hok, -, -⟩ := decodeBody_ok data h
    refine ⟨g, ?_⟩
    unfold try_manual_reading
    rw [hok]
    rfl
  · intro h
    unfold try_manual_reading decodeBody
    rw [if_neg (by omega)]
    rfl

/-- Witness for C10: the empty file yields `none`; a 353-byte file yields a
grid. -/
theorem manual_decoder_total_interface_witness :
    try_manual_reading [] = none
    ∧ ∃ g, try_manual_reading (List.replicate 353 0) = some g :=
  ⟨(manual_decoder_total_interface []).2 (by decide),
   (manual_decoder_total_interface (List.replicate 353 0)).1
     (by rw [List.length_replicate]; decide)⟩

/-! ### Coverage resolution and remote paths (`fetch_file`, src/app.py
lines 194-215) -/

/-- A requested UTC instant at the granularity the application accepts:
year, month, day and hour (lines 200, 400-407). -/
structure RequestTime where
  year : Nat
  month : Nat
  day : Nat
  hour : Nat
deriving DecidableEq

/-- Numeric key giving the chronological order of request times: for fields in
their calendar ranges it orders exactly as Python `datetime` comparison does. -/
def RequestTime.key (t : RequestTime) : Nat :=
  ((t.year * 100 + t.month) * 100 + t.day) * 100 + t.hour

/-- Coverage window boundary `datetime(1995, 6, 13, 6)` (line 20). -/
def GMS5_START_DATE : RequestTime := ⟨1995, 6, 13, 6⟩

/-- Coverage window boundary `datetime(2003, 5, 22, 0)` (line 21). -/
def GMS5_END_DATE : RequestTime := ⟨2003, 5, 22, 0⟩

/-- Coverage window boundary `datetime(2003, 5, 22, 1)` (line 22). -/
def GOES9_START_DATE : RequestTime := ⟨2003, 5, 22, 1⟩

/-- Coverage window boundary `datetime(2005, 6, 28, 2)` (line 23). -/
def GOES9_END_DATE : RequestTime := ⟨2005, 6, 28, 2⟩

/-- Outcome of coverage resolution: the chosen satellite or the
out-of-coverage error message (lines 202-212). -/
inductive Resolved
  | gms5
  | goes9
  | noCoverage
deriving DecidableEq

/-- Coverage resolution of lines 202-212: reject instants before the GMS5
start or after the GOES9 end, then test each window inclusively; the final
`else` also reports no coverage. -/
def resolveCoverage (t : RequestTime) : Resolved :=
  if t.key < GMS5_START_DATE.key ∨ GOES9_END_DATE.key < t.key then .noCoverage
  else if GMS5_START_DATE.key ≤ t.key ∧ t.key ≤ GMS5_END_DATE.key then .gms5
  else if GOES9_START_DATE.key ≤ t.key ∧ t.key ≤ GOES9_END_DATE.key then .goes9
  else .noCoverage

/-- The two satellites of the archive. -/
inductive Satellite
  | gms5
  | goes9
deriving DecidableEq

/-- Satellite identifier used in archive filenames (lines 207, 210). -/
def satName : Satellite → String
  | .gms5 => "GMS5"
  | .goes9 => "GOES9"

/-- Archive base path chosen per satellite (lines 206, 209). -/
def ftp_base_path : Satellite → String
  | .gms5 => "/pub/GMS5/VISSR"
  | .goes9 => "/pub/GOES9-Pacific/VISSR"

/-- Python `f"{n:02d}"`: decimal rendering zero-padded on the left to at least
two characters (lines 214-215). -/
def pad2 (n : Nat) : String :=
  if n < 10 then "0" ++ toString n else toString n

/-- Remote directory derived at line 214:
`f"{ftp_base_path}/{year}{month:02d}/{day:02d}"`. -/
def ftp_dir (sat : Satellite) (t : RequestTime) : String :=
  ftp_base_path sat ++ "/" ++ toString t.year ++ pad2 t.month ++ "/" ++ pad2 t.day

/-- Archive filename derived at line 215:
`f"VISSR_{satellite}_{year}{month:02d}{day:02d}{hour:02d}00.tar"`. -/
def file_name (sat : Satellite) (t : RequestTime) : String :=
  "VISSR_" ++ satName sat ++ "_" ++ toString t.year ++ pad2 t.month
    ++ pad2 t.day ++ pad2 t.hour ++ "00.tar"

/-- Two decimal digits of a value, zero-padded, following the spec's
`<DD>`-style fixed-width fields. -/
def specPad2 (n : Nat) : String :=
  String.mk [Nat.digitChar (n / 10), Nat.digitChar (n % 10)]

/-- Four decimal digits of a year, following the spec's `<YYYY>` field. -/
def specYYYY (y : Nat) : String :=
  String.mk [Nat.digitChar (y / 1000), Nat.digitChar (y / 100 % 10),
    Nat.digitChar (y / 10 % 10), Nat.digitChar (y % 10)]

/-- Remote directory in the layout the spec states:
`<archiveBasePath>/<YYYYMM>/<DD>`. -/
def spec_remote_dir (sat : Satellite) (t : RequestTime) : String :=
  ftp_base_path sat ++ "/" ++ specYYYY t.year ++ specPad2 t.month
    ++ "/" ++ specPad2 t.day

/-- Archive filename in the scheme the spec states:
`VISSR_<SATELLITE>_<YYYYMMDDHH>00.tar`. -/
def spec_archive_name (sat : Satellite) (t : RequestTime) : String :=
  "VISSR_" ++ satName sat ++ "_" ++ specYYYY t.year ++ specPad2 t.month
    ++ specPad2 t.day ++ specPad2 t.hour ++ "00.tar"

/-- C2: for every request time with fields in their calendar ranges, the
resolver answers GMS5 exactly on the closed interval from 1995-06-13T06:00 to
2003-05-22T00:00, GOES9 exactly on the closed interval from 2003-05-22T01:00
to 2005-06-28T02:00, and no-coverage exactly outside both. -/
theorem coverage_resolver_windows (t : RequestTime)
    (_hm1 : 1 ≤ t.month) (_hm2 : t.month ≤ 12)
    (_hd1 : 1 ≤ t.day) (_hd2 : t.day ≤ 31) (_hh : t.hour ≤ 23) :
    (resolveCoverage t = .gms5
      ↔ GMS5_START_DATE.key ≤ t.key ∧ t.key ≤ GMS5_END_DATE.key)
    ∧ (resolveCoverage t = .goes9
      ↔ GOES9_START_DATE.key ≤ t.key ∧ t.key ≤ GOES9_END_DATE.key)
    ∧ (resolveCoverage t = .noCoverage
      ↔ ¬(GMS5_START_DATE.key ≤ t.key ∧ t.key ≤ GMS5_END_DATE.key)
        ∧ ¬(GOES9_START_DATE.key ≤ t.key ∧ t.key ≤ GOES9_END_DATE.key)) := by
  have e1 : GMS5_START_DATE.key = 1995061306 := rfl
  have e2 : GMS5_END_DATE.key = 2003052200 := rfl
  have e3 : GOES9_START_DATE.key = 2003052201 := rfl
  have e4 : GOES9_END_DATE.key = 2005062802 := rfl
  unfold resolveCoverage
  rw [e1, e2, e3, e4]
  split_ifs with h1 h2 h3 <;>
    refine ⟨⟨fun hc => ?_, fun hc => ?_⟩, ⟨fun hc => ?_, fun hc => ?_⟩,
      ⟨fun hc => ?_, fun hc => ?_⟩⟩ <;>
    first
      | rfl
      | omega
      | (exact absurd hc (by simp))

/-- Witness for C2: the three boundary instants the claim names. -/
theorem coverage_resolver_windows_witness :
    resolveCoverage ⟨2003, 5, 22, 0⟩ = .gms5
    ∧ resolveCoverage ⟨2003, 5, 22, 1⟩ = .goes9
    ∧ resolveCoverage ⟨1995, 6, 13, 5⟩ = .noCoverage :=
  ⟨(coverage_resolver_windows ⟨2003, 5, 22, 0⟩ (by decide) (by decide)
      (by decide) (by decide) (by decide)).1.mpr (by decide),
   (coverage_resolver_windows ⟨2003, 5, 22, 1⟩ (by decide) (by decide)
      (by decide) (by decide) (by decide)).2.1.mpr (by decide),
   (coverage_resolver_windows ⟨1995, 6, 13, 5⟩ (by decide) (by decide)
      (by decide) (by decide) (by decide)).2.2.mpr (by decide)⟩

/-- Two-digit Python formatting agrees with the spec's zero-padded two-digit
field on every value below 100. -/
theorem pad2_eq_specPad2 : ∀ n < 100, pad2 n = specPad2 n := by decide

/-- Python decimal rendering of an in-coverage year agrees with the spec's
four-digit `<YYYY>` field. -/
theorem toString_year_eq_specYYYY (y : Nat) (h1 : 1995 ≤ y) (h2 : y ≤ 2005) :
    toString y = specYYYY y := by
  interval_cases y <;> decide

/-- C9: for every in-coverage request time with fields in their calendar
ranges, the derived remote directory is `<archiveBasePath>/<YYYYMM>/<DD>` and
the derived archive filename is `VISSR_<SATELLITE>_<YYYYMMDDHH>00.tar`, with
month, day and hour zero-padded to two digits. -/
theorem remote_path_format (t : RequestTime)
    (hm1 : 1 ≤ t.month) (hm2 : t.month ≤ 12)
    (hd1 : 1 ≤ t.day) (hd2 : t.day ≤ 31) (hh : t.hour ≤ 23)
    (hc : resolveCoverage t ≠ .noCoverage) (sat : Satellite) :
    ftp_dir sat t = spec_remote_dir sat t
    ∧ file_name sat t = spec_archive_name sat t := by
  have hk : GMS5_START_DATE.key ≤ t.key ∧ t.key ≤ GOES9_END_DATE.key := by
    unfold resolveCoverage at hc
    split_ifs at hc with h1 h2 h3
    · exact absurd rfl hc
    all_goals omega
  have e1 : GMS5_START_DATE.key = 1995061306 := rfl
  have e4 : GOES9_END_DATE.key = 2005062802 := rfl
  rw [e1, e4] at hk
  have hkey : t.key = ((t.year * 100 + t.month) * 100 + t.day) * 100 + t.hour := rfl
  have hy1 : 1995 ≤ t.year := by omega
  have hy2 : t.year ≤ 2005 := by omega
  unfold ftp_dir spec_remote_dir file_name spec_archive_name
  rw [toString_year_eq_specYYYY t.year hy1 hy2,
    pad2_eq_specPad2 t.month (by omega), pad2_eq_specPad2 t.day (by omega),
    pad2_eq_specPad2 t.hour (by omega)]
  exact ⟨rfl, rfl⟩

/-- Witness for C9 at the request (2000, 1, 1, 0) under GMS5. -/
theorem remote_path_format_witness :
    ftp_dir .gms5 ⟨2000, 1, 1, 0⟩ = spec_remote_dir .gms5 ⟨2000, 1, 1, 0⟩
    ∧ file_name .gms5 ⟨2000, 1, 1, 0⟩ = spec_archive_name .gms5 ⟨2000, 1, 1, 0⟩ :=
  remote_path_format ⟨2000, 1, 1, 0⟩ (by decide) (by decide) (by decide)
    (by decide) (by decide) (by decide) .gms5

/-! ### Scratch-resource lifecycle and result cache (src/app.py lines 194-197,
284-386, 434-468)

The orchestration is modelled at the level of its observable effects on the
scratch resources of one request: whether the scratch temporary directory made
by `tempfile.mkdtemp()` (line 197) exists, and whether the decompressed image
file written inside it (lines 261-266) exists. `process_and_plot` needs that
file (both the primary reader and `try_manual_reading` open `file_path`,
lines 299 and 310) and its `finally` block (lines 378-386) deletes the file
and the directory while swallowing any cleanup exception. `fetch_file` is
wrapped in `st.cache_data(ttl=3600)` (line 194), so a repeated identical
request within the time-to-live returns the previously cached triple without
re-running the body. -/

/-- State of the scratch resources of one request. -/
structure ScratchFS where
  dirExists : Bool
  imgExists : Bool
deriving DecidableEq

/-- How a run of the `fetch_file` body ends: success (lines 261-270) or one of
its error returns (lines 203, 212, 231, 240, 247, 272, 274-282). -/
inductive FetchOutcome
  | success
  | outOfCoverage
  | directoryNotFound
  | fileNotFound
  | emptyDownload
  | memberNotFound
  | transportError
deriving DecidableEq

/-- Value returned by `fetch_file`: the image path inside the scratch
directory, or an error message triple. This is the value `st.cache_data`
stores. -/
inductive FetchReturn
  | file
  | failure (o : FetchOutcome)
deriving DecidableEq

/-- Effect of running the `fetch_file` body: `tempfile.mkdtemp()` always
creates the scratch directory first (line 197); on success the image file is
written inside it (lines 264-266); no return path of the body removes the
directory (lines 199-282 contain no cleanup). -/
def fetch_file_model : FetchOutcome → ScratchFS × FetchReturn
  | .success => (⟨true, true⟩, .file)
  | o => (⟨true, false⟩, .failure o)

/-- Value produced by `process_and_plot`: the final image path, or an
exception propagated to the caller (line 313 or line 377). -/
inductive ProcessReturn
  | image
  | raised
deriving DecidableEq

/-- Effect of `process_and_plot` (lines 284-386): decoding succeeds only if
the image file exists and one of the two strategies works (lines 295-316);
rendering may fail (lines 318-374); the `finally` block removes the image file
and the scratch directory (lines 378-386) unless the cleanup operations
themselves fail, and a cleanup failure is swallowed (`except: pass`,
`ignore_errors=True`) so it never changes the returned value. -/
def process_and_plot_model (satpyOk manualOk renderOk cleanupFails : Bool)
    (fs : ScratchFS) : ScratchFS × ProcessReturn :=
  let decodeOk := fs.imgExists && (satpyOk || manualOk)
  let result := if decodeOk && renderOk then ProcessReturn.image else ProcessReturn.raised
  (if cleanupFails then fs else ⟨false, false⟩, result)

/-- Outcome of one top-level request as `main` reports it
(lines 442-443, 451, 465-466). -/
inductive GenerateResult
  | image
  | fetchError (o : FetchOutcome)
  | processError
deriving DecidableEq

/-- One top-level request (lines 434-468): consult the `st.cache_data` cache
for `fetch_file`; on a miss run the fetch body and cache its return value; on
a fetch error report it; otherwise run `process_and_plot` on the fetched
path. Returns the final scratch state, the cache contents, and the reported
result. -/
def generate_model (cache : Option FetchReturn) (o : FetchOutcome)
    (satpyOk manualOk renderOk cleanupFails : Bool) (fs : ScratchFS) :
    ScratchFS × Option FetchReturn × GenerateResult :=
  let step : ScratchFS × FetchReturn :=
    match cache with
    | some r => (fs, r)
    | none => fetch_file_model o
  match step.2 with
  | .failure e => (step.1, some step.2, .fetchError e)
  | .file =>
      let p := process_and_plot_model satpyOk manualOk renderOk cleanupFails step.1
      (p.1, some step.2,
        match p.2 with
        | .image => .image
        | .raised => .processError)

/-- Counterexample to C3: a request that fails during fetch (here: remote
directory not found) returns its error while the scratch temporary directory
created by `fetch_file` still exists — the fetch-failure exit path performs no
cleanup. -/
theorem fetch_failure_leaks_scratch_dir :
    (generate_model none .directoryNotFound true true true false
        ⟨false, false⟩).2.2 = .fetchError .directoryNotFound
    ∧ (generate_model none .directoryNotFound true true true false
        ⟨false, false⟩).1.dirExists = true := by
  exact ⟨rfl, rfl⟩

/-- C3 as amended: on every exit path that reaches `process_and_plot`
(success, decode failure and render failure), the scratch file and the scratch
temporary directory are removed before the pipeline returns whenever the
cleanup operations themselves succeed, and a failure inside the cleanup path
never masks or replaces the primary result; on fetch-failure exit paths the
scratch directory is not removed. -/
theorem cleanup_on_process_exit_paths (satpyOk manualOk renderOk cleanupFails : Bool)
    (fs : ScratchFS) :
    (generate_model none .success satpyOk manualOk renderOk false fs).1
      = ⟨false, false⟩
    ∧ (generate_model none .success satpyOk manualOk renderOk cleanupFails fs).2.2
      = (generate_model none .success satpyOk manualOk renderOk false fs).2.2 := by
  exact ⟨rfl, rfl⟩

/-- C8: evaluation of the two-request scenario. The first request (cache
miss, fetch succeeds, both decoders and the renderer work) produces an image
and, through the cleanup of `process_and_plot`, deletes the scratch directory.
The second identical request within the time-to-live receives the cached path
whose file no longer exists, both decode strategies fail on it, and the
request errors: the cached result is not valid for the second invocation and
the two results differ. -/
theorem cached_second_request_fails :
    (generate_model none .success true true true false ⟨false, false⟩).2.2
      = GenerateResult.image
    ∧ (generate_model
        (generate_model none .success true true true false ⟨false, false⟩).2.1
        .success true true true false
        (generate_model none .success true true true false ⟨false, false⟩).1).2.2
      = GenerateResult.processError := by
  exact ⟨rfl, rfl⟩

end WPAC
